import Mathlib

/-!
# Formal model of the MindTrace aggregation layer (`src/streamlit_app.py`)

This file embeds the pure data-transformation core of the journaling app:
`weather_group`, `weekly_review`, `next_action_list`, the data preparation
steps of `plot_intensity_by_weather` and `plot_temp_vs_intensity`, and the
payload construction of `insert_entry`.

Modelling conventions:
* A DataFrame of entries is a `List Entry`, one element per row, in the
  order the store returns them.
* Calendar dates are `Int` (days since a fixed epoch); Python `date`
  comparison and `timedelta` arithmetic map to `Int` order and subtraction.
  `entry_date` values stored by the app are always valid ISO dates (they
  are written via `date.isoformat()`), so date coercion of the stored
  column never fails and the field is a plain `Int`.
* `intensity` is stored post-coercion: `some q` when
  `pd.to_numeric(x, errors="coerce")` yields the number `q`, `none` when
  the coercion fails (pandas `NaN`).  Likewise `temp_max`/`temp_min`.
  Python floats are modelled as exact rationals; `NaN` appears explicitly
  as the constructor `PyFloat.nan` where a computation can produce it.
* `emotion` is a plain `String`: the app only ever writes one of the ten
  fixed labels from its select box, never null (§3 invariant of the data
  model).
* Nullable free-text columns (`interpretation`, `desire`, `next_action`)
  are `Option String`.
* Effects are passed explicitly: the wall-clock date read by
  `weekly_review` (`date.today()`) and the timestamp read by `insert_entry`
  (`datetime.now()`) become explicit parameters, and the outcome of the
  weather lookup that `insert_entry` wraps in `try/except` becomes an
  `Except` argument.  Network and UI calls are out of scope; the model of
  each plotting helper returns the data series handed to matplotlib, and
  the model of `insert_entry` returns the payload handed to the store.
-/

/-- A Python float that matters to the model: either an exact number or
`NaN` (as produced by `Series.mean()` on an empty series). -/
inductive PyFloat where
  | nan : PyFloat
  | num (q : ℚ) : PyFloat
deriving DecidableEq

/-- Argument of `weather_group`: the stored `weather_code` cell.  `null`
is Python `None` (or pandas `NaN`, which also fails `int(...)` and lands
in the same `except` branch); `nonnum` is any other value rejected by
`int(...)`; `intv n` is a value that coerces to the integer `n`. -/
inductive WCode where
  | null : WCode
  | nonnum : WCode
  | intv (n : Int) : WCode
deriving DecidableEq

/-- `weather_group` of `src/streamlit_app.py` lines 82–103, case for case.
The source returns Japanese labels; throughout this development
`"晴れ"` = clear, `"くもり"` = cloudy, `"霧"` = fog, `"雨"` = rain,
`"雪"` = snow, `"雷"` = thunder, `"その他"` = other, `"不明"` = unknown. -/
def weather_group : WCode → String
  | .null => "不明"
  | .nonnum => "不明"
  | .intv c =>
    if c = 0 then "晴れ"
    else if c = 1 ∨ c = 2 ∨ c = 3 then "くもり"
    else if c = 45 ∨ c = 48 then "霧"
    else if (51 ≤ c ∧ c ≤ 67) ∨ (80 ≤ c ∧ c ≤ 82) then "雨"
    else if (71 ≤ c ∧ c ≤ 77) ∨ (85 ≤ c ∧ c ≤ 86) then "雪"
    else if 95 ≤ c ∧ c ≤ 99 then "雷"
    else "その他"

/-- The eight labels `weather_group` can produce. -/
def weatherLabels : List String :=
  ["晴れ", "くもり", "霧", "雨", "雪", "雷", "その他", "不明"]

/-- One row of the `entries` table, with the columns selected by
`load_entries`. -/
structure Entry where
  id : Int
  created_at : String
  entry_date : Int
  event : String
  emotion : String
  intensity : Option ℚ
  interpretation : Option String
  desire : Option String
  next_action : Option String
  weather_code : Option Int
  temp_max : Option ℚ
  temp_min : Option ℚ
deriving DecidableEq

/-- Row constructor for concrete test data (irrelevant columns fixed). -/
def mkEntry (d : Int) (emo : String) (i : Option ℚ) (na : Option String) : Entry :=
  { id := 0, created_at := "", entry_date := d, event := "e", emotion := emo,
    intensity := i, interpretation := none, desire := none, next_action := na,
    weather_code := none, temp_max := none, temp_min := none }

/-- Number of occurrences of `x` in `l` (a `value_counts` cell). -/
def countOf (l : List String) (x : String) : Nat :=
  (l.filter (fun y => y = x)).length

/-- One step of the maximum-count scan over the distinct emotions. -/
def modeStep (es : List String) : Option String → String → Option String
  | none, x => some x
  | some b, x => if countOf es b < countOf es x then some x else some b

/-- `value_counts().idxmax()`: an emotion of maximal occurrence count,
`none` only on the empty list.  Among equally frequent emotions the
first-appearing one is kept; the source's tie order comes from pandas
`value_counts` internals and is implementation-defined, and no theorem
below depends on which maximiser is picked. -/
def modeEmotion (es : List String) : Option String :=
  es.dedup.foldl (modeStep es) none

/-- The dict returned by `weekly_review`.  The empty-window branch of the
source carries an extra `"num_records": 0` key that the main branch omits;
`num_records` is `some 0` exactly in that branch. -/
structure Summary where
  since : Int
  days : Int
  num_records : Option Nat
  num_days : Nat
  top_emotion : Option String
  avg_intensity : Option PyFloat
deriving DecidableEq

/-- `weekly_review` of `src/streamlit_app.py` lines 257–275.  `today` is
the value of the internal `date.today()` call, passed as explicit clock
state.  Returns `none` where the source returns Python `None` (empty
input frame). -/
def weekly_review (df : List Entry) (days : Int) (today : Int) : Option Summary :=
  if df = [] then none
  else
    let since := today - (days - 1)
    let w := df.filter (fun e => since ≤ e.entry_date)
    if w = [] then
      some { since := since, days := days, num_records := some 0, num_days := 0,
             top_emotion := none, avg_intensity := none }
    else
      let vals := w.filterMap (fun e => e.intensity)
      some { since := since, days := days, num_records := none,
             num_days := (w.map (fun e => e.entry_date)).dedup.length,
             top_emotion := modeEmotion (w.map (fun e => e.emotion)),
             avg_intensity :=
               some (if vals = [] then PyFloat.nan
                     else PyFloat.num (vals.sum / (vals.length : ℚ))) }

/-- `num_days` of a `weekly_review` result, `0` for `None`. -/
def numDaysOf : Option Summary → Nat
  | some s => s.num_days
  | none => 0

/-- `top_emotion` of a `weekly_review` result, `none` for `None`. -/
def topEmotionOf : Option Summary → Option String
  | some s => s.top_emotion
  | none => none

/-- `avg_intensity` of a `weekly_review` result, `none` for `None`. -/
def avgIntensityOf : Option Summary → Option PyFloat
  | some s => s.avg_intensity
  | none => none

/-- Python `str.strip()`: drop leading and trailing whitespace. -/
def pyStrip (s : String) : String :=
  ⟨((s.data.dropWhile Char.isWhitespace).reverse.dropWhile Char.isWhitespace).reverse⟩

/-- The column assignment
`d["next_action"] = d["next_action"].fillna("").astype(str).str.strip()`
applied to one row. -/
def trimNA (e : Entry) : Entry :=
  { e with next_action := some (pyStrip (e.next_action.getD "")) }

/-- `next_action_list` of `src/streamlit_app.py` lines 277–285: trim the
`next_action` column on a copy, keep rows where it is non-empty, return
the first `max_items` of them in the given order. -/
def next_action_list (df : List Entry) (max_items : Nat) : List Entry :=
  if df = [] then []
  else
    let d2 := (df.map trimNA).filter (fun e => ¬ e.next_action = some "")
    if d2 = [] then [] else d2.take max_items

/-- The `weather_group` column value of a row:
`weather_group` applied to the stored `weather_code` cell. -/
def weatherKey (e : Entry) : String :=
  weather_group (match e.weather_code with
    | some n => WCode.intv n
    | none => WCode.null)

/-- Arithmetic mean of a list of rationals (`Series.mean()` on a
non-empty numeric series). -/
def listMean (l : List ℚ) : ℚ := l.sum / (l.length : ℚ)

/-- Mean intensity of the rows of `d2` whose `weather_group` column
equals `g` (`groupby("weather_group")["intensity"].mean()` for key `g`). -/
def groupMean (d2 : List Entry) (g : String) : ℚ :=
  listMean (d2.filterMap (fun e => if weatherKey e = g then e.intensity else none))

/-- Data preparation of `plot_intensity_by_weather` (lines 210–232): the
`(weather_group, mean intensity)` series handed to the bar chart.  Rows
whose intensity fails numeric coercion are dropped; `groupby` (with its
default ascending key sort) collects the groups; `sort_values(ascending=False)`
orders them by descending mean.  The model uses `mergeSort` where the
source's pandas sorts leave tie order implementation-defined; no theorem
below depends on tie order. -/
def plot_intensity_by_weather (df : List Entry) : List (String × ℚ) :=
  if df = [] then []
  else
    let d2 := df.filter (fun e => e.intensity.isSome)
    if d2 = [] then []
    else
      let groups := ((d2.map weatherKey).dedup).mergeSort (fun a b => a ≤ b)
      (groups.map (fun g => (g, groupMean d2 g))).mergeSort
        (fun a b => decide (b.2 ≤ a.2))

/-- Pandas `+` on two possibly-`NaN` cells: `NaN` propagates. -/
def optAdd : Option ℚ → Option ℚ → Option ℚ
  | some a, some b => some (a + b)
  | _, _ => none

/-- The `temp_mean` column: `(d["temp_max"] + d["temp_min"]) / 2`. -/
def tempMeanCell (tmax tmin : Option ℚ) : Option ℚ :=
  (optAdd tmax tmin).map (fun x => x / 2)

/-- The column pipeline of `plot_temp_vs_intensity`: build the
`(temp_mean, intensity)` columns, `dropna` on both, and read off the
remaining pairs (the two series handed to `ax.scatter`). -/
def tempRows (l : List Entry) : List (ℚ × ℚ) :=
  ((l.map (fun e => (tempMeanCell e.temp_max e.temp_min, e.intensity))).filter
      (fun p => p.1.isSome && p.2.isSome)).filterMap
    (fun p =>
      match p.1, p.2 with
      | some a, some b => some (a, b)
      | _, _ => none)

/-- Data preparation of `plot_temp_vs_intensity` (lines 234–255). -/
def plot_temp_vs_intensity (df : List Entry) : List (ℚ × ℚ) :=
  if df = [] then [] else tempRows df

/-- The weather record produced by `fetch_kumamoto_weather_daily`. -/
structure WeatherInfo where
  weather_code : Option Int
  temp_max : Option ℚ
  temp_min : Option ℚ
deriving DecidableEq

/-- The payload dict `insert_entry` hands to
`supabase.table("entries").insert(...)`. -/
structure Payload where
  created_at : String
  entry_date : Int
  event : String
  emotion : String
  intensity : Int
  interpretation : String
  desire : String
  next_action : String
  weather_code : Option Int
  temp_max : Option ℚ
  temp_min : Option ℚ
deriving DecidableEq

/-- `insert_entry` of `src/streamlit_app.py` lines 108–129, up to the
store call: `now` is the internal `datetime.now()` timestamp as explicit
clock state, `wres` the outcome of the `try fetch_kumamoto_weather_daily`
(`Except.error` for any raised exception).  The returned payload is
persisted unconditionally; a lookup failure only nulls the three weather
fields. -/
def insert_entry (now : String) (entry_date : Int) (event : String)
    (emotion : String) (intensity : Int)
    (interpretation desire next_action : Option String)
    (wres : Except Unit WeatherInfo) : Payload :=
  let w : WeatherInfo :=
    match wres with
    | .ok wi => wi
    | .error _ => { weather_code := none, temp_max := none, temp_min := none }
  { created_at := now
    entry_date := entry_date
    event := pyStrip event
    emotion := emotion
    intensity := intensity
    interpretation := pyStrip (interpretation.getD "")
    desire := pyStrip (desire.getD "")
    next_action := pyStrip (next_action.getD "")
    weather_code := w.weather_code
    temp_max := w.temp_max
    temp_min := w.temp_min }

/-- One entry far outside every 7-day window ending at day `0`. -/
def exOld : List Entry := [mkEntry (-100) "安心" (some 5) none]

/-- Eight entries on eight consecutive days, all of them on or after day
`0`; dates after the reference day are accepted by the `>= since` filter. -/
def exEightDays : List Entry :=
  [mkEntry 0 "嬉しい" (some 5) none, mkEntry 1 "嬉しい" (some 5) none,
   mkEntry 2 "嬉しい" (some 5) none, mkEntry 3 "嬉しい" (some 5) none,
   mkEntry 4 "嬉しい" (some 5) none, mkEntry 5 "嬉しい" (some 5) none,
   mkEntry 6 "嬉しい" (some 5) none, mkEntry 7 "嬉しい" (some 5) none]

/-- A single in-window entry (its intensity cell fails coercion, which
keeps the expected summary free of rational division). -/
def exToday : List Entry := [mkEntry 0 "嬉しい" none none]

/-- The summary `weekly_review exToday 7 0` produces. -/
def exTodaySummary : Summary :=
  { since := -6, days := 7, num_records := none, num_days := 1,
    top_emotion := some "嬉しい", avg_intensity := some PyFloat.nan }

/-- A single in-window entry whose intensity fails numeric coercion. -/
def exBadIntensity : List Entry := [mkEntry 0 "焦り" none none]

/-- Entries for exercising `next_action_list`: one row with a next action
(padded with whitespace), one with an empty one, one with null. -/
def exActions : List Entry :=
  [mkEntry 2 "嬉しい" (some 8) (some " call mom "),
   mkEntry 1 "不安" (some 4) (some ""),
   mkEntry 0 "疲れ" (some 3) none]

/-- An entry collection dated around day `10`, used to show that the
result of `weekly_review` depends on the ambient clock. -/
def exClock : List Entry := [mkEntry 10 "嬉しい" (some 5) none]

/-! ## Theorems -/

/-- Scanning further distinct emotions never loses a `some` accumulator. -/
theorem foldl_modeStep_some (es : List String) (l : List String) (b : String) :
    ∃ c, l.foldl (modeStep es) (some b) = some c := by
  induction l generalizing b with
  | nil => exact ⟨b, rfl⟩
  | cons x t ih =>
    simp only [List.foldl_cons, modeStep]
    by_cases h : countOf es b < countOf es x
    · rw [if_pos h]; exact ih x
    · rw [if_neg h]; exact ih b

/-- `modeEmotion` yields a label on every non-empty list. -/
theorem modeEmotion_ne_none (es : List String) (h : ¬ es = []) :
    ¬ modeEmotion es = none := by
  unfold modeEmotion
  cases hd : es.dedup with
  | nil => exact absurd ((List.dedup_eq_nil es).mp hd) h
  | cons x t =>
    obtain ⟨c, hc⟩ := foldl_modeStep_some es t x
    simp [modeStep, hc]

/-- C1: `weather_group` is total on integer codes and null: null or a
non-numeric value maps to unknown (`"不明"`), `0` to clear (`"晴れ"`),
`1..3` to cloudy (`"くもり"`), `45` and `48` to fog (`"霧"`), `51..67` and
`80..82` to rain (`"雨"`), `71..77` and `85..86` to snow (`"雪"`),
`95..99` to thunder (`"雷"`), and every other integer (e.g. `200`) to
other (`"その他"`); every input yields exactly one of the eight labels,
and the function never raises (it is total by construction). -/
theorem weather_group_total :
    weather_group .null = "不明" ∧
    weather_group .nonnum = "不明" ∧
    weather_group (.intv 0) = "晴れ" ∧
    (∀ c : Int, 1 ≤ c → c ≤ 3 → weather_group (.intv c) = "くもり") ∧
    (weather_group (.intv 45) = "霧" ∧ weather_group (.intv 48) = "霧") ∧
    (∀ c : Int, 51 ≤ c → c ≤ 67 → weather_group (.intv c) = "雨") ∧
    (∀ c : Int, 80 ≤ c → c ≤ 82 → weather_group (.intv c) = "雨") ∧
    (∀ c : Int, 71 ≤ c → c ≤ 77 → weather_group (.intv c) = "雪") ∧
    (∀ c : Int, 85 ≤ c → c ≤ 86 → weather_group (.intv c) = "雪") ∧
    (∀ c : Int, 95 ≤ c → c ≤ 99 → weather_group (.intv c) = "雷") ∧
    (∀ c : Int, ¬ c = 0 → ¬ (1 ≤ c ∧ c ≤ 3) → ¬ c = 45 → ¬ c = 48 →
      ¬ (51 ≤ c ∧ c ≤ 67) → ¬ (80 ≤ c ∧ c ≤ 82) → ¬ (71 ≤ c ∧ c ≤ 77) →
      ¬ (85 ≤ c ∧ c ≤ 86) → ¬ (95 ≤ c ∧ c ≤ 99) →
      weather_group (.intv c) = "その他") ∧
    weather_group (.intv 200) = "その他" ∧
    (∀ w : WCode, weather_group w ∈ weatherLabels) := by
  refine ⟨rfl, rfl, by decide, ?_, ⟨by decide, by decide⟩, ?_, ?_, ?_, ?_, ?_, ?_,
    by decide, ?_⟩
  · intro c h1 h2
    simp only [weather_group]
    split_ifs <;> first | rfl | omega
  · intro c h1 h2
    simp only [weather_group]
    split_ifs <;> first | rfl | omega
  · intro c h1 h2
    simp only [weather_group]
    split_ifs <;> first | rfl | omega
  · intro c h1 h2
    simp only [weather_group]
    split_ifs <;> first | rfl | omega
  · intro c h1 h2
    simp only [weather_group]
    split_ifs <;> first | rfl | omega
  · intro c h1 h2
    simp only [weather_group]
    split_ifs <;> first | rfl | omega
  · intro c h0 h13 h45 h48 hra hrb hsa hsb ht
    simp only [weather_group]
    split_ifs <;> first | rfl | omega
  · intro w
    cases w with
    | null => simp [weather_group, weatherLabels]
    | nonnum => simp [weather_group, weatherLabels]
    | intv c =>
      simp only [weather_group, weatherLabels]
      split_ifs <;> simp

/-- Witness for C1 at concrete codes: `2` is cloudy, `61` is rain. -/
theorem weather_group_total_witness :
    (1 ≤ (2 : Int) ∧ (2 : Int) ≤ 3 ∧ weather_group (.intv 2) = "くもり") ∧
    (51 ≤ (61 : Int) ∧ (61 : Int) ≤ 67 ∧ weather_group (.intv 61) = "雨") :=
  ⟨⟨by decide, by decide, weather_group_total.2.2.2.1 2 (by decide) (by decide)⟩,
   ⟨by decide, by decide, weather_group_total.2.2.2.2.2.1 61 (by decide) (by decide)⟩⟩

/-- C9: a failed weather lookup makes `insert_entry` persist the entry
with all three weather fields null and every other payload field exactly
as in the successful case; the payload is always produced, so a weather
failure never blocks the save. -/
theorem insert_entry_weather_failure (now : String) (ed : Int) (ev emo : String)
    (i : Int) (itp des na : Option String) (wi : WeatherInfo) :
    (insert_entry now ed ev emo i itp des na (.error ())).weather_code = none ∧
    (insert_entry now ed ev emo i itp des na (.error ())).temp_max = none ∧
    (insert_entry now ed ev emo i itp des na (.error ())).temp_min = none ∧
    insert_entry now ed ev emo i itp des na (.error ()) =
      { insert_entry now ed ev emo i itp des na (.ok wi) with
        weather_code := none, temp_max := none, temp_min := none } :=
  ⟨rfl, rfl, rfl, rfl⟩

/-- C2 counterexample: on the entirely empty collection `weekly_review`
returns Python `None`, not a summary with `num_days = 0` and null
`top_emotion` / `avg_intensity`. -/
theorem weekly_review_none_on_empty : weekly_review [] 7 0 = none := rfl

/-- C2 amended: for every NON-empty collection whose filtered window is
empty, `weekly_review` returns the zero summary (`num_days = 0`,
`top_emotion = none`, `avg_intensity = none`); the entirely empty
collection instead yields `none` (no summary object). -/
theorem weekly_review_empty_window (df : List Entry) (days today : Int)
    (hne : ¬ df = [])
    (hw : df.filter (fun e => today - (days - 1) ≤ e.entry_date) = []) :
    weekly_review df days today =
      some { since := today - (days - 1), days := days, num_records := some 0,
             num_days := 0, top_emotion := none, avg_intensity := none } := by
  simp only [weekly_review, if_neg hne, hw]
  simp

/-- Witness for C2's amended theorem: a one-entry collection dated far in
the past, reference day `0`. -/
theorem weekly_review_empty_window_witness :
    ¬ exOld = [] ∧
    weekly_review exOld 7 0 =
      some { since := 0 - (7 - 1), days := 7, num_records := some 0,
             num_days := 0, top_emotion := none, avg_intensity := none } :=
  ⟨by decide, weekly_review_empty_window exOld 7 0 (by decide) (by decide)⟩

/-- C8 counterexample: `weekly_review` reads `date.today()` internally,
so with the clock as ambient state the same entry collection and the same
`days` argument produce different summaries at different clock readings. -/
theorem weekly_review_clock_dependence :
    ¬ weekly_review exClock 7 10 = weekly_review exClock 7 100 := by decide

/-- C8 amended: `weekly_review` is pure and deterministic given the same
entry collection, the same `days`, and the same ambient clock date; the
reference date is, however, read from the wall clock inside the function
(modelled as the explicit clock-state parameter `today`), not taken as a
caller-supplied parameter. -/
theorem weekly_review_deterministic (df : List Entry) (days : Int)
    (c1 c2 : Int) (h : c1 = c2) :
    weekly_review df days c1 = weekly_review df days c2 := by rw [h]

/-- Witness for C8's amended theorem at a concrete collection and clock. -/
theorem weekly_review_deterministic_witness :
    (0 : Int) = 0 ∧ weekly_review exToday 7 0 = weekly_review exToday 7 0 :=
  ⟨rfl, weekly_review_deterministic exToday 7 0 0 rfl⟩

/-- C3 counterexample: the `entry_date >= since` window has no upper
bound, so eight future-dated entries on consecutive days starting at the
reference day give `num_days = 8 > 7` with `days = 7`. -/
theorem weekly_review_exceeds_seven :
    7 < numDaysOf (weekly_review exEightDays 7 0) := by decide

/-- C3 amended: whenever `weekly_review` with `days = 7` returns a
summary, its `num_days` is at most the number of entries in the filtered
window; it is at most `7` provided every entry is dated on or before the
reference day (future-dated entries, which the `>= since` filter also
admits, can push the count past `7`). -/
theorem weekly_review_num_days_bound (df : List Entry) (today : Int) (s : Summary)
    (h : weekly_review df 7 today = some s) :
    s.num_days ≤ (df.filter (fun e => today - (7 - 1) ≤ e.entry_date)).length ∧
    ((∀ e ∈ df, e.entry_date ≤ today) → s.num_days ≤ 7) := by
  by_cases hne : df = []
  · subst hne
    simp [weekly_review] at h
  · simp only [weekly_review, if_neg hne] at h
    by_cases hwe : df.filter (fun e => today - (7 - 1) ≤ e.entry_date) = []
    · rw [if_pos hwe] at h
      obtain rfl := Option.some_inj.mp h.symm
      simp
    · rw [if_neg hwe] at h
      obtain rfl := Option.some_inj.mp h.symm
      constructor
      · calc ((df.filter (fun e => today - (7 - 1) ≤ e.entry_date)).map
              (fun e => e.entry_date)).dedup.length
            ≤ ((df.filter (fun e => today - (7 - 1) ≤ e.entry_date)).map
              (fun e => e.entry_date)).length :=
              (List.dedup_sublist _).length_le
          _ = (df.filter (fun e => today - (7 - 1) ≤ e.entry_date)).length :=
              List.length_map _ _
      · intro hall
        set L := ((df.filter (fun e => today - (7 - 1) ≤ e.entry_date)).map
          (fun e => e.entry_date)).dedup with hL
        have hnodup : L.Nodup := List.nodup_dedup _
        have hsub : L.toFinset ⊆ Finset.Icc (today - 6) today := by
          intro x hx
          rw [List.mem_toFinset, hL, List.mem_dedup, List.mem_map] at hx
          obtain ⟨e, he, rfl⟩ := hx
          have hef := List.mem_filter.mp he
          have hlow : today - (7 - 1) ≤ e.entry_date := of_decide_eq_true hef.2
          have hhigh : e.entry_date ≤ today := hall e hef.1
          rw [Finset.mem_Icc]
          omega
        have hcard : L.toFinset.card = L.length := List.toFinset_card_of_nodup hnodup
        have hle : L.toFinset.card ≤ (Finset.Icc (today - 6) today).card :=
          Finset.card_le_card hsub
        rw [Int.card_Icc] at hle
        show L.length ≤ 7
        omega

/-- Witness for C3's amended theorem: one entry dated on the reference
day, with all entry dates on or before it. -/
theorem weekly_review_num_days_bound_witness :
    weekly_review exToday 7 0 = some exTodaySummary ∧
    exTodaySummary.num_days ≤
      (exToday.filter (fun e => 0 - (7 - 1) ≤ e.entry_date)).length ∧
    exTodaySummary.num_days ≤ 7 :=
  ⟨by decide,
   (weekly_review_num_days_bound exToday 0 exTodaySummary (by decide)).1,
   (weekly_review_num_days_bound exToday 0 exTodaySummary (by decide)).2
     (by decide)⟩

/-- C10: on every non-empty filtered window all of whose entries have an
intensity that fails numeric coercion, `weekly_review` still returns a
summary with `num_days > 0` and a non-null `top_emotion`, and its
`avg_intensity` is the float `NaN` (mean of an empty series), not null. -/
theorem weekly_review_all_unparsable_intensity (df : List Entry) (days today : Int)
    (hw : ¬ df.filter (fun e => today - (days - 1) ≤ e.entry_date) = [])
    (hbad : ∀ e ∈ df.filter (fun e => today - (days - 1) ≤ e.entry_date),
      e.intensity = none) :
    ¬ weekly_review df days today = none ∧
    0 < numDaysOf (weekly_review df days today) ∧
    ¬ topEmotionOf (weekly_review df days today) = none ∧
    avgIntensityOf (weekly_review df days today) = some PyFloat.nan := by
  have hne : ¬ df = [] := by
    intro hcon
    subst hcon
    simp at hw
  have hvals : (df.filter (fun e => today - (days - 1) ≤ e.entry_date)).filterMap
      (fun e => e.intensity) = [] :=
    List.filterMap_eq_nil_iff.mpr hbad
  simp only [weekly_review, if_neg hne, if_neg hw, hvals]
  refine ⟨by simp, ?_, ?_, by simp [avgIntensityOf]⟩
  · simp only [numDaysOf]
    rw [List.length_pos, Ne, List.dedup_eq_nil, List.map_eq_nil_iff]
    exact hw
  · simp only [topEmotionOf]
    apply modeEmotion_ne_none
    rw [List.map_eq_nil_iff]
    exact hw

/-- Witness for C10: one in-window entry whose intensity fails coercion. -/
theorem weekly_review_all_unparsable_intensity_witness :
    ¬ weekly_review exBadIntensity 7 0 = none ∧
    0 < numDaysOf (weekly_review exBadIntensity 7 0) ∧
    ¬ topEmotionOf (weekly_review exBadIntensity 7 0) = none ∧
    avgIntensityOf (weekly_review exBadIntensity 7 0) = some PyFloat.nan :=
  weekly_review_all_unparsable_intensity exBadIntensity 7 0 (by decide) (by decide)

/-- C4: `next_action_list` returns at most `max_items` rows; it equals
the first `max_items` qualifying rows in input order (trim applied, no
re-sorting); every returned row comes from an input row whose trimmed
`next_action` is non-empty; when at most `max_items` rows qualify it
returns all of them (hence the empty sequence when none qualify); and the
result is a sublist of the trimmed input, so the input order is kept and
the input itself is never mutated (the source works on a copy, and the
model is a pure function). -/
theorem next_action_list_spec (df : List Entry) (m : Nat) :
    (next_action_list df m).length ≤ m ∧
    next_action_list df m
      = ((df.map trimNA).filter (fun e => ¬ e.next_action = some "")).take m ∧
    (∀ e ∈ next_action_list df m,
      ∃ x ∈ df, e = trimNA x ∧ ¬ pyStrip (x.next_action.getD "") = "") ∧
    (((df.map trimNA).filter (fun e => ¬ e.next_action = some "")).length ≤ m →
      next_action_list df m
        = (df.map trimNA).filter (fun e => ¬ e.next_action = some "")) ∧
    (next_action_list df m).Sublist (df.map trimNA) := by
  have key : next_action_list df m
      = ((df.map trimNA).filter (fun e => ¬ e.next_action = some "")).take m := by
    by_cases hne : df = []
    · subst hne; simp [next_action_list]
    · simp only [next_action_list, if_neg hne]
      by_cases h2 : (df.map trimNA).filter (fun e => ¬ e.next_action = some "") = []
      · rw [if_pos h2, h2]
        simp
      · rw [if_neg h2]
  refine ⟨?_, key, ?_, ?_, ?_⟩
  · rw [key, List.length_take]
    exact Nat.min_le_left _ _
  · intro e he
    rw [key] at he
    have hmem := List.take_subset _ _ he
    obtain ⟨hmap, hpred⟩ := List.mem_filter.mp hmem
    obtain ⟨x, hx, rfl⟩ := List.mem_map.mp hmap
    refine ⟨x, hx, rfl, ?_⟩
    have : ¬ (trimNA x).next_action = some "" := of_decide_eq_true hpred
    simp only [trimNA] at this
    intro hcon
    exact this (by rw [hcon])
  · intro hlen
    rw [key]
    exact List.take_of_length_le hlen
  · rw [key]
    exact (List.take_sublist _ _).trans (List.filter_sublist _)

/-- Witness for C4 on three concrete rows (one qualifying next action,
one empty, one null), `max_items = 8`: all hypotheses hold and the list
of all qualifying rows is returned. -/
theorem next_action_list_spec_witness :
    ((exActions.map trimNA).filter (fun e => ¬ e.next_action = some "")).length ≤ 8 ∧
    next_action_list exActions 8
      = (exActions.map trimNA).filter (fun e => ¬ e.next_action = some "") :=
  ⟨by decide, (next_action_list_spec exActions 8).2.2.2.1 (by decide)⟩

/-- The column pipeline of `plot_temp_vs_intensity` keeps exactly the
rows with both temperatures and a coercible intensity, pairing
`(temp_max + temp_min) / 2` with the intensity. -/
theorem tempRows_eq_filterMap (l : List Entry) :
    tempRows l = l.filterMap (fun e =>
      match e.temp_max, e.temp_min, e.intensity with
      | some a, some b, some i => some ((a + b) / 2, i)
      | _, _, _ => none) := by
  induction l with
  | nil => rfl
  | cons e t ih =>
    simp only [tempRows, tempMeanCell, optAdd, List.map_cons, List.filter_cons,
      List.filterMap_cons] at ih ⊢
    cases hmx : e.temp_max <;> cases hmn : e.temp_min <;> cases hi : e.intensity <;>
      simp [hmx, hmn, hi, ih]

/-- C7: the weather aggregation of `plot_intensity_by_weather` is, up to
the display permutation, one `(weather_group, mean intensity)` pair per
distinct weather group of the rows with coercible intensity (rows with
non-numeric intensity excluded), and the emitted order is descending by
mean intensity; and `plot_temp_vs_intensity` returns exactly the
`((temp_max + temp_min) / 2, intensity)` pairs of the entries having both
temperatures and a coercible intensity. -/
theorem weather_buckets_and_temp_pairs (df : List Entry) :
    ((plot_intensity_by_weather df).Pairwise (fun a b => b.2 ≤ a.2) ∧
      (plot_intensity_by_weather df).Perm
        (((df.filter (fun e => e.intensity.isSome)).map weatherKey).dedup.map
          (fun g => (g, groupMean (df.filter (fun e => e.intensity.isSome)) g)))) ∧
    plot_temp_vs_intensity df
      = df.filterMap (fun e =>
          match e.temp_max, e.temp_min, e.intensity with
          | some a, some b, some i => some ((a + b) / 2, i)
          | _, _, _ => none) := by
  refine ⟨⟨?_, ?_⟩, ?_⟩
  · by_cases hne : df = []
    · subst hne
      simp [plot_intensity_by_weather]
    · simp only [plot_intensity_by_weather, if_neg hne]
      by_cases h2 : df.filter (fun e => e.intensity.isSome) = []
      · rw [if_pos h2]
        simp
      · rw [if_neg h2]
        refine List.Pairwise.imp ?_ (List.sorted_mergeSort ?_ ?_ _)
        · intro a b h
          exact of_decide_eq_true h
        · intro a b c h1 h2
          have g1 : b.2 ≤ a.2 := of_decide_eq_true h1
          have g2 : c.2 ≤ b.2 := of_decide_eq_true h2
          exact decide_eq_true (le_trans g2 g1)
        · intro a b
          rcases le_total b.2 a.2 with h | h
          · simp [h]
          · simp [h]
  · by_cases hne : df = []
    · subst hne
      simp [plot_intensity_by_weather]
    · simp only [plot_intensity_by_weather, if_neg hne]
      by_cases h2 : df.filter (fun e => e.intensity.isSome) = []
      · rw [if_pos h2, h2]
        simp
      · rw [if_neg h2]
        refine (List.mergeSort_perm _ _).trans ?_
        exact (List.mergeSort_perm _ _).map _
  · by_cases hne : df = []
    · subst hne
      rfl
    · simp only [plot_temp_vs_intensity, if_neg hne]
      exact tempRows_eq_filterMap df
